import Mathlib

/-!
Verification development for the reddit_cv_analysis repository: a shallow
embedding of the streaming filter-normalize-persist pipeline implemented in
`filter_reddit_comments.py`, `filter_reddit_submissions.py` and
`reddit_utils.py`, together with theorems settling the specification claims.

Modelling conventions:
* Python `str` is embedded as Lean `String`; `str.lower()` as `pyLower`
  (character-wise lowering) and `str.strip()` as `pyStrip` (whitespace
  stripping at both ends).
* A decoded JSON value (as produced by `json.loads`) is embedded as `PyVal`.
  A field that is absent from the object, or whose JSON value is `null`
  (Python `None`), is embedded as `Option.none`, matching `obj.get(k)`.
* One line of the decompressed archive, after the `strip()` performed by
  `read_zst_file`, is embedded as `RawLine`: `blank` (falsy string),
  `malformed` (`json.loads` raises `JSONDecodeError`), or `record`
  (a decoded JSON object projected onto the fields the pipeline reads).
* File-system effects are embedded as explicit state: the CSV file as an
  optional list of entries (`none` = the file does not exist), the Parquet
  file as an optional list of rows, and batch flushes in the driver as
  appends to a `written` list.
* The driver is modelled twice. `processComments` treats every flush as a
  successful write; `processCommentsChecked` models the flush faithfully:
  it runs `normalizeCommentBatch`, whose `astype('boolean')` raises on a
  non-bool-like cell, and the raised error aborts the run exactly as the
  uncaught `TypeError` aborts `process_comments`.
* The `Option` in a record's `subreddit`/`author` field models an absent
  key. A line whose JSON decodes to a non-object, or to an object whose
  `subreddit` or `author` value is JSON null, makes the source raise an
  uncaught `AttributeError` at `.lower()`; such lines are outside the
  domain of `RawLine` and of every theorem below.
-/

/-- Embedding of a decoded (non-null) JSON value as handed around by the
Python scripts. `json.loads` maps JSON null to Python `None`, which is
represented at use sites as `Option.none`, so `PyVal` has no null case. -/
inductive PyVal where
  | bool (b : Bool)
  | int (n : Int)
  | str (s : String)
  | arr (xs : List String)
  | obj (kvs : List (String × String))
deriving DecidableEq

/-- Python truthiness (`bool(v)`) for the embedded values: `False`, `0`,
the empty string, the empty list and the empty dict are falsy. -/
def pyTruthy : PyVal → Bool
  | .bool b => b
  | .int n => n != 0
  | .str s => s != ""
  | .arr xs => xs != []
  | .obj kvs => kvs != []

/-- Truthiness of `obj.get(k)`: a missing key yields `None`, which is falsy. -/
def pyTruthyOpt : Option PyVal → Bool
  | none => false
  | some v => pyTruthy v

/-- Embedding of the Python comparison `obj.get(k) == 1` (note that in
Python `True == 1` also holds). -/
def pyEqOne : Option PyVal → Bool
  | some (.int n) => n == 1
  | some (.bool b) => b
  | _ => false

/-- Embedding of the Python comparison `obj.get(k) == True` (in Python
`1 == True` also holds). -/
def pyEqTrue : Option PyVal → Bool
  | some (.bool b) => b
  | some (.int n) => n == 1
  | _ => false

/-- Embedding of Python `str.lower()`: lower every character. -/
def pyLower (s : String) : String :=
  String.mk (s.data.map Char.toLower)

/-- Embedding of Python `str.strip()`: drop whitespace from both ends. -/
def pyStrip (s : String) : String :=
  String.mk (((s.data.dropWhile Char.isWhitespace).reverse.dropWhile
    Char.isWhitespace).reverse)

/-- Embedding of `load_list_from_file` (identical in
`filter_reddit_comments.py` lines 21-32, `filter_reddit_submissions.py`
lines 24-35 and `reddit_utils.py` lines 34-46): strip each line, skip the
blank ones, lower-case and add to a set. The Python `set` is embedded as a
`List String` with `set.add` as `List.insert`; only membership matters. -/
def loadListFromFile (lines : List String) : List String :=
  lines.foldl
    (fun items line =>
      let item := pyStrip line
      if item = "" then items else items.insert (pyLower item))
    []

/-- One stripped line of the decompressed archive, as seen by the loop body
of `process_comments` / `process_submissions`: blank, undecodable, or a
decoded JSON object of record type `ρ`. -/
inductive RawLine (ρ : Type) where
  | blank
  | malformed
  | record (r : ρ)
deriving DecidableEq

/-- Projection of a decoded comment object onto the fields that
`process_comments` (`filter_reddit_comments.py`) reads. The record-literal
at lines 145-196 copies further business fields unchanged with `obj.get`;
they play no role in filtering or typed normalization and are elided. -/
structure CommentRecord where
  id : Option String
  subreddit : Option String
  author : Option String
  banned_by : Option PyVal
  collapsed_because_crowd_control : Option PyVal
  comment_type : Option PyVal
  controversiality : Option PyVal
  mod_reason_by : Option PyVal
  mod_reason_title : Option PyVal
  removal_reason : Option PyVal
  created_utc : Option PyVal
  retrieved_on : Option PyVal
  author_premium : Option PyVal
  author_is_blocked : Option PyVal
  likes : Option PyVal
  score : Option PyVal
  ups : Option PyVal
  distinguished : Option String
  body : Option String
deriving DecidableEq

/-- A comment object with every field absent, for building test records. -/
def emptyComment : CommentRecord :=
  ⟨none, none, none, none, none, none, none, none, none, none, none, none,
   none, none, none, none, none, none, none⟩

/-- The closed enumeration of rejection reasons of the comments pipeline
(the keys of `filtered_counts`, `filter_reddit_comments.py` lines 78-87). -/
inductive CommentReason where
  | not_interest_subreddit
  | bad_lines
  | bots
  | banned
  | crowd_control
  | non_text
  | controversial
  | removed
deriving DecidableEq

/-- FilterOutcome of one input line: kept, or rejected with one reason. -/
inductive CommentOutcome where
  | kept
  | rejected (reason : CommentReason)
deriving DecidableEq

/-- The Record Filter of the comments pipeline: the short-circuit
check chain of `process_comments` (`filter_reddit_comments.py` lines
92-143) as a pure classification of one archive line. -/
def classifyComment (allow bots : List String) (l : RawLine CommentRecord) :
    CommentOutcome :=
  match l with
  | .blank => .rejected .bad_lines
  | .malformed => .rejected .bad_lines
  | .record r =>
    let subreddit := pyLower (r.subreddit.getD "")
    if subreddit ∈ allow then
      let author := pyLower (r.author.getD "")
      if author ∈ bots ∨ author = "[deleted]" then .rejected .bots
      else if r.banned_by.isSome then .rejected .banned
      else if pyTruthyOpt r.collapsed_because_crowd_control then
        .rejected .crowd_control
      else if r.comment_type.isSome then .rejected .non_text
      else if pyEqOne r.controversiality then .rejected .controversial
      else if r.mod_reason_by.isSome ∨ r.mod_reason_title.isSome ∨
          r.removal_reason.isSome then .rejected .removed
      else .kept
    else .rejected .not_interest_subreddit



/-- Embedding of the Python idiom `d[k] = d.get(k, 0) + 1` on an
insertion-ordered dict, used for `subreddit_counts` and
`filtered_subreddit_counts`. -/
def bump (m : List (String × Nat)) (k : String) : List (String × Nat) :=
  match m with
  | [] => [(k, 1)]
  | (k0, v) :: rest =>
    if k0 = k then (k0, v + 1) :: rest else (k0, v) :: bump rest k

/-- Embedding of `d.get(k, 0)` on the insertion-ordered dict. -/
def lookup0 (m : List (String × Nat)) (k : String) : Nat :=
  match m with
  | [] => 0
  | (k0, v) :: rest => if k0 = k then v else lookup0 rest k

/-- The mutable run state of `process_comments`
(`filter_reddit_comments.py` lines 76-90, plus the two output sinks and the
stats file). `written` records every row flushed by `process_and_save_batch`
(flushes are modelled as succeeding, spec section 4.6); `statsWrites` counts
the writes of the statistics report to `stats_output_file`. -/
structure CommentsRunState where
  data : List CommentRecord
  written : List CommentRecord
  totalLines : Nat
  notInterestCount : Nat
  badLinesCount : Nat
  botsCount : Nat
  bannedCount : Nat
  crowdControlCount : Nat
  nonTextCount : Nat
  controversialCount : Nat
  removedCount : Nat
  subredditCounts : List (String × Nat)
  filteredSubredditCounts : List (String × Nat)
  statsWrites : Nat
deriving DecidableEq

/-- The state of `process_comments` before the first line is read. -/
def initCommentsState : CommentsRunState :=
  ⟨[], [], 0, 0, 0, 0, 0, 0, 0, 0, 0, [], [], 0⟩

/-- One iteration of the `for line in read_zst_file(input_file)` loop of
`process_comments` (`filter_reddit_comments.py` lines 92-207): count the
line, classify it, update the per-reason and per-forum counters, buffer a
kept record, and flush the buffer once it reaches `batch_size`. The flush
is modelled here as a successful append to `written`; the fallible variant
in which the flush can raise (as `process_and_save_batch` does on a
non-bool-like boolean cell) is `stepCommentsChecked`. -/
def stepComments (allow bots : List String) (batchSize : Nat)
    (st : CommentsRunState) (l : RawLine CommentRecord) : CommentsRunState :=
  let st := { st with totalLines := st.totalLines + 1 }
  match l with
  | .blank => { st with badLinesCount := st.badLinesCount + 1 }
  | .malformed => { st with badLinesCount := st.badLinesCount + 1 }
  | .record r =>
    let subreddit := pyLower (r.subreddit.getD "")
    let st := { st with subredditCounts := bump st.subredditCounts subreddit }
    if subreddit ∈ allow then
      let st := { st with
        filteredSubredditCounts := bump st.filteredSubredditCounts subreddit }
      let author := pyLower (r.author.getD "")
      if author ∈ bots ∨ author = "[deleted]" then
        { st with botsCount := st.botsCount + 1 }
      else if r.banned_by.isSome then
        { st with bannedCount := st.bannedCount + 1 }
      else if pyTruthyOpt r.collapsed_because_crowd_control then
        { st with crowdControlCount := st.crowdControlCount + 1 }
      else if r.comment_type.isSome then
        { st with nonTextCount := st.nonTextCount + 1 }
      else if pyEqOne r.controversiality then
        { st with controversialCount := st.controversialCount + 1 }
      else if r.mod_reason_by.isSome ∨ r.mod_reason_title.isSome ∨
          r.removal_reason.isSome then
        { st with removedCount := st.removedCount + 1 }
      else
        let st := { st with data := st.data ++ [r] }
        if batchSize ≤ st.data.length then
          { st with written := st.written ++ st.data, data := [] }
        else st
    else { st with notInterestCount := st.notInterestCount + 1 }

/-- End-of-input drain of `process_comments` (`filter_reddit_comments.py`
lines 209-214): `if data: process_and_save_batch(...); data.clear()`. The
flush is modelled as succeeding; `drainCommentsChecked` is the fallible
variant. -/
def drainComments (st : CommentsRunState) : CommentsRunState :=
  if st.data = [] then st
  else { st with written := st.written ++ st.data, data := [] }

/-- Final statistics write of `process_comments`
(`filter_reddit_comments.py` lines 228-239): the report is written to the
stats file once, after the drain. -/
def reportComments (st : CommentsRunState) : CommentsRunState :=
  { st with statsWrites := st.statsWrites + 1 }

/-- The whole of `process_comments` over one archive: fold the loop body
over the stripped lines, drain the trailing batch, write the report. -/
def processComments (allow bots : List String) (batchSize : Nat)
    (lines : List (RawLine CommentRecord)) : CommentsRunState :=
  reportComments
    (drainComments (lines.foldl (stepComments allow bots batchSize) initCommentsState))

/-- Sum of the per-reason rejection counters, as computed by
`total_filtered = sum(filtered_counts.values())` (line 217). -/
def totalFilteredComments (st : CommentsRunState) : Nat :=
  st.notInterestCount + st.badLinesCount + st.botsCount + st.bannedCount +
    st.crowdControlCount + st.nonTextCount + st.controversialCount +
    st.removedCount


/-- Projection of a decoded submission object onto the fields that
`process_submissions` (`filter_reddit_submissions.py`) reads for filtering.
The record-literal at lines 137-185 copies further business fields
unchanged with `obj.get`; they are elided as in `CommentRecord`. -/
structure SubmissionRecord where
  id : Option String
  subreddit : Option String
  author : Option String
  quarantine : Option PyVal
  banned_by : Option PyVal
  removed_by : Option PyVal
  removed_by_category : Option PyVal
  over_18 : Option PyVal
deriving DecidableEq

/-- A submission object with every field absent. -/
def emptySubmission : SubmissionRecord :=
  ⟨none, none, none, none, none, none, none, none⟩

/-- The mutable run state of `process_submissions`
(`filter_reddit_submissions.py` lines 72-87 plus the sinks and the stats
file). The `author_blocked` counter is initialised by the source but no
check ever increments it; it is carried for faithfulness. -/
structure SubmissionsRunState where
  data : List SubmissionRecord
  written : List SubmissionRecord
  totalLines : Nat
  notInterestCount : Nat
  badLinesCount : Nat
  botsCount : Nat
  quarantineCount : Nat
  authorBlockedCount : Nat
  bannedCount : Nat
  removedCount : Nat
  removedCategoryCount : Nat
  over18Count : Nat
  subredditCounts : List (String × Nat)
  filteredSubredditCounts : List (String × Nat)
  statsWrites : Nat
deriving DecidableEq

/-- The state of `process_submissions` before the first line is read. -/
def initSubmissionsState : SubmissionsRunState :=
  ⟨[], [], 0, 0, 0, 0, 0, 0, 0, 0, 0, 0, [], [], 0⟩

/-- One iteration of the `for line in read_zst_file(input_file)` loop of
`process_submissions` (`filter_reddit_submissions.py` lines 89-231):
count, classify with the submissions check chain (lines 91-134), buffer a
kept record, and flush once the buffer reaches `batch_size` (lines
191-231). As in `stepComments` the flush is modelled as succeeding,
although the source flush runs `astype('boolean')` and can raise; this is
immaterial to the theorems below about this pipeline: the C1 trace flushes
nothing, and the stats file is never written whether or not a run
aborts. -/
def stepSubmissions (allow bots : List String) (batchSize : Nat)
    (st : SubmissionsRunState) (l : RawLine SubmissionRecord) :
    SubmissionsRunState :=
  let st := { st with totalLines := st.totalLines + 1 }
  match l with
  | .blank => { st with badLinesCount := st.badLinesCount + 1 }
  | .malformed => { st with badLinesCount := st.badLinesCount + 1 }
  | .record r =>
    let subreddit := pyLower (r.subreddit.getD "")
    let st := { st with subredditCounts := bump st.subredditCounts subreddit }
    if subreddit ∈ allow then
      let st := { st with
        filteredSubredditCounts := bump st.filteredSubredditCounts subreddit }
      let author := pyLower (r.author.getD "")
      if author ∈ bots ∨ author = "[deleted]" then
        { st with botsCount := st.botsCount + 1 }
      else if pyEqTrue r.quarantine then
        { st with quarantineCount := st.quarantineCount + 1 }
      else if r.banned_by.isSome then
        { st with bannedCount := st.bannedCount + 1 }
      else if r.removed_by.isSome then
        { st with removedCount := st.removedCount + 1 }
      else if r.removed_by_category.isSome then
        { st with removedCategoryCount := st.removedCategoryCount + 1 }
      else if pyEqTrue r.over_18 then
        { st with over18Count := st.over18Count + 1 }
      else
        let st := { st with data := st.data ++ [r] }
        if batchSize ≤ st.data.length then
          { st with written := st.written ++ st.data, data := [] }
        else st
    else { st with notInterestCount := st.notInterestCount + 1 }

/-- The whole of `process_submissions` over one archive
(`filter_reddit_submissions.py` lines 56-231). After the loop the function
body only contains the definition of a nested `main` function (lines
233-542) which is never invoked, and then returns: there is no
end-of-input drain of the trailing partial batch and no write of the
statistics report in this function. -/
def processSubmissions (allow bots : List String) (batchSize : Nat)
    (lines : List (RawLine SubmissionRecord)) : SubmissionsRunState :=
  lines.foldl (stepSubmissions allow bots batchSize) initSubmissionsState


/-- One physical line of the row-oriented (CSV) output file: either the
column header or one data row. -/
inductive CsvEntry (ρ : Type) where
  | header
  | row (r : ρ)
deriving DecidableEq

/-- The CSV half of `write_batch_to_disk`
(`filter_reddit_comments.py` lines 38-39, identically
`filter_reddit_submissions.py` line 43):
`df_batch.to_csv(f, mode='a', header=not os.path.exists(f))`. The file is
`none` when it does not exist; append mode creates it, and the header is
emitted exactly when the file did not exist at the time of the call. -/
def writeBatchCsv {ρ : Type} (file : Option (List (CsvEntry ρ)))
    (batch : List ρ) : List (CsvEntry ρ) :=
  match file with
  | none => .header :: batch.map .row
  | some entries => entries ++ batch.map .row

/-- Flush a run's successive batches through `writeBatchCsv`, starting from
a given file state (after each call the file exists). -/
def flushBatchesCsv {ρ : Type} (file : Option (List (CsvEntry ρ))) :
    List (List ρ) → Option (List (CsvEntry ρ))
  | [] => file
  | b :: bs => flushBatchesCsv (some (writeBatchCsv file b)) bs

/-- Number of header lines contained in a CSV file state. -/
def headerCount {ρ : Type} : List (CsvEntry ρ) → Nat
  | [] => 0
  | .header :: rest => headerCount rest + 1
  | .row _ :: rest => headerCount rest

/-- Number of header lines of an optional CSV file (0 when the file does
not exist). -/
def fileHeaderCount {ρ : Type} : Option (List (CsvEntry ρ)) → Nat
  | none => 0
  | some entries => headerCount entries

/-- The Parquet half of `write_batch_to_disk` in
`filter_reddit_comments.py` (lines 41-49) and identically
`filter_reddit_submissions.py` (lines 45-53). The result pairs the file
contents after the call with the number of previously committed rows the
call had to read back: if the file exists, the source executes
`existing_df = pd.read_parquet(f)` — reading the entire existing file —
and rewrites the concatenation. -/
def writeBatchParquetRewrite {ρ : Type} (file : Option (List ρ))
    (batch : List ρ) : List ρ × Nat :=
  match file with
  | none => (batch, 0)
  | some rows => (rows ++ batch, rows.length)

/-- The Parquet half of `reddit_utils.write_batch_to_disk`
(`reddit_utils.py` lines 69-83): if the file exists the source executes
`fastparquet.write(f, df_batch, append=True)`, appending the batch's row
group without reading back any committed rows. Same result type as
`writeBatchParquetRewrite` for comparison. -/
def writeBatchParquetAppend {ρ : Type} (file : Option (List ρ))
    (batch : List ρ) : List ρ × Nat :=
  match file with
  | none => (batch, 0)
  | some rows => (rows ++ batch, 0)

/-- The value space of the pandas nullable `boolean` dtype: the tri-state
true / false / unknown (`pd.NA`). -/
inductive TriBool where
  | btrue
  | bfalse
  | bunknown
deriving DecidableEq

/-- Embedding of `series.astype('boolean')` applied to one cell of an
object column (`filter_reddit_comments.py` line 261): missing values map
to `pd.NA`, Python booleans map across, integers 0 and 1 are accepted as
bool-like, and any other value makes pandas raise
(`TypeError: Need to pass bool-like values`). -/
def astypeBoolean (v : Option PyVal) : Except String TriBool :=
  match v with
  | none => .ok .bunknown
  | some (.bool b) => .ok (if b then .btrue else .bfalse)
  | some (.int n) =>
    if n = 0 then .ok .bfalse
    else if n = 1 then .ok .btrue
    else .error "Need to pass bool-like values"
  | some _ => .error "Need to pass bool-like values"

/-- The cell values on which `astypeBoolean` succeeds. -/
def boolLike (v : Option PyVal) : Bool :=
  match v with
  | none => true
  | some (.bool _) => true
  | some (.int n) => n == 0 || n == 1
  | some _ => false

/-- Embedding of `pd.to_datetime(col, unit='s', utc=True, errors='coerce')`
applied to one cell (`filter_reddit_comments.py` line 253): an integer
epoch-seconds value converts, everything unparsable coerces to `NaT`
(`none`); by construction this never raises. -/
def toDatetimeCoerce (v : Option PyVal) : Option Int :=
  match v with
  | some (.int n) => some n
  | _ => none

/-- Embedding of `pd.to_numeric(col, errors='coerce')` applied to one cell
(`filter_reddit_comments.py` line 266): integers pass through, booleans
coerce to 0/1, numeric strings parse, everything else coerces to `NaN`
(`none`); by construction this never raises. -/
def toNumericCoerce (v : Option PyVal) : Option Int :=
  match v with
  | some (.int n) => some n
  | some (.bool b) => some (if b then 1 else 0)
  | some (.str s) => s.toInt?
  | _ => none

/-- One normalized output row of the comments pipeline, restricted to the
modelled columns: typed timestamps, tri-state booleans, nullable numerics,
the enumerated-default column and defaulted strings
(`process_and_save_batch`, `filter_reddit_comments.py` lines 249-281). -/
structure NormalizedCommentRow where
  id : Option String
  created_utc : Option Int
  retrieved_on : Option Int
  author_premium : TriBool
  author_is_blocked : TriBool
  likes : TriBool
  score : Option Int
  ups : Option Int
  distinguished : String
  body : String
deriving DecidableEq

/-- Normalization of one accepted record by `process_and_save_batch`
(`filter_reddit_comments.py` lines 249-281): timestamp and numeric columns
coerce (never raising), boolean columns go through `astype('boolean')`
(which raises on non-bool-like cells), `distinguished` defaults to
`"none"` and string columns default to the empty string. -/
def normalizeCommentRecord (r : CommentRecord) :
    Except String NormalizedCommentRow :=
  match astypeBoolean r.author_premium with
  | .error e => .error e
  | .ok ap =>
    match astypeBoolean r.author_is_blocked with
    | .error e => .error e
    | .ok ab =>
      match astypeBoolean r.likes with
      | .error e => .error e
      | .ok lk =>
        .ok { id := r.id
              created_utc := toDatetimeCoerce r.created_utc
              retrieved_on := toDatetimeCoerce r.retrieved_on
              author_premium := ap
              author_is_blocked := ab
              likes := lk
              score := toNumericCoerce r.score
              ups := toNumericCoerce r.ups
              distinguished := r.distinguished.getD "none"
              body := r.body.getD "" }

/-- Normalization of a whole batch. pandas applies each conversion
column-wise and the batch fails as soon as any cell of a boolean column is
not bool-like; folding the per-record normalization reproduces exactly that
success/failure condition. -/
def normalizeCommentBatch : List CommentRecord →
    Except String (List NormalizedCommentRow)
  | [] => .ok []
  | r :: rest =>
    match normalizeCommentRecord r with
    | .error e => .error e
    | .ok row =>
      match normalizeCommentBatch rest with
      | .error e => .error e
      | .ok rows => .ok (row :: rows)

/-- One iteration of the `process_comments` loop with the batch flush
modelled faithfully: reaching `batch_size` calls `process_and_save_batch`
(`filter_reddit_comments.py` lines 199-203), whose `astype('boolean')`
raises a `TypeError` on any non-bool-like boolean cell; only
`json.JSONDecodeError` is caught, so the error propagates out of
`process_comments` and aborts the run. On a successful flush the buffered
records (in one-to-one correspondence with the normalized rows) are
appended to `written` as in `stepComments`. -/
def stepCommentsChecked (allow bots : List String) (batchSize : Nat)
    (st : CommentsRunState) (l : RawLine CommentRecord) :
    Except String CommentsRunState :=
  let st := { st with totalLines := st.totalLines + 1 }
  match l with
  | .blank => .ok { st with badLinesCount := st.badLinesCount + 1 }
  | .malformed => .ok { st with badLinesCount := st.badLinesCount + 1 }
  | .record r =>
    let subreddit := pyLower (r.subreddit.getD "")
    let st := { st with subredditCounts := bump st.subredditCounts subreddit }
    if subreddit ∈ allow then
      let st := { st with
        filteredSubredditCounts := bump st.filteredSubredditCounts subreddit }
      let author := pyLower (r.author.getD "")
      if author ∈ bots ∨ author = "[deleted]" then
        .ok { st with botsCount := st.botsCount + 1 }
      else if r.banned_by.isSome then
        .ok { st with bannedCount := st.bannedCount + 1 }
      else if pyTruthyOpt r.collapsed_because_crowd_control then
        .ok { st with crowdControlCount := st.crowdControlCount + 1 }
      else if r.comment_type.isSome then
        .ok { st with nonTextCount := st.nonTextCount + 1 }
      else if pyEqOne r.controversiality then
        .ok { st with controversialCount := st.controversialCount + 1 }
      else if r.mod_reason_by.isSome ∨ r.mod_reason_title.isSome ∨
          r.removal_reason.isSome then
        .ok { st with removedCount := st.removedCount + 1 }
      else
        let st := { st with data := st.data ++ [r] }
        if batchSize ≤ st.data.length then
          match normalizeCommentBatch st.data with
          | .error e => .error e
          | .ok _ => .ok { st with written := st.written ++ st.data, data := [] }
        else .ok st
    else .ok { st with notInterestCount := st.notInterestCount + 1 }

/-- The `for line in read_zst_file(input_file)` loop of `process_comments`
with fallible flushes: a raised error aborts the loop, so the remaining
lines are never read and receive no outcome. -/
def runCommentsChecked (allow bots : List String) (batchSize : Nat) :
    Except String CommentsRunState → List (RawLine CommentRecord) →
      Except String CommentsRunState
  | e, [] => e
  | .error msg, _ :: _ => .error msg
  | .ok st, l :: ls =>
    runCommentsChecked allow bots batchSize
      (stepCommentsChecked allow bots batchSize st l) ls

/-- End-of-input drain of `process_comments` (lines 209-214) with the
flush modelled faithfully: draining a nonempty trailing batch runs
`process_and_save_batch`, which can raise and abort the run before any
statistics are written. -/
def drainCommentsChecked (st : CommentsRunState) :
    Except String CommentsRunState :=
  if st.data = [] then .ok st
  else
    match normalizeCommentBatch st.data with
    | .error e => .error e
    | .ok _ => .ok { st with written := st.written ++ st.data, data := [] }

/-- The whole of `process_comments` over one archive with fallible
flushes: loop, drain, and — only when no flush raised — the single final
statistics write. An `.error` result models the run aborting with an
uncaught exception: no statistics report is ever written. -/
def processCommentsChecked (allow bots : List String) (batchSize : Nat)
    (lines : List (RawLine CommentRecord)) : Except String CommentsRunState :=
  match runCommentsChecked allow bots batchSize (.ok initCommentsState) lines with
  | .error e => .error e
  | .ok st =>
    match drainCommentsChecked st with
    | .error e => .error e
    | .ok st2 => .ok (reportComments st2)

/-- Number of record lines of the archive whose case-folded forum name is
`f` and passes the forum allow-list check — i.e. the lines on which
`process_comments` executes past line 105. Used to state what the
`filtered_subreddit_counts` table actually counts. -/
def countForumPassed (allow : List String) (f : String) :
    List (RawLine CommentRecord) → Nat
  | [] => 0
  | .record r :: rest =>
    (if pyLower (r.subreddit.getD "") = f ∧ pyLower (r.subreddit.getD "") ∈ allow
      then 1 else 0) + countForumPassed allow f rest
  | .blank :: rest => countForumPassed allow f rest
  | .malformed :: rest => countForumPassed allow f rest

/-- A submission record that the filter keeps, used to exhibit the lost
trailing batch of `process_submissions`. -/
def keptSubmission : SubmissionRecord :=
  { emptySubmission with
      subreddit := some "testsub", author := some "alice", id := some "1" }

/-- A comment from an allow-listed forum whose author is block-listed. -/
def botComment : CommentRecord :=
  { emptyComment with subreddit := some "testsub", author := some "spammer" }

/-- A benign comment record: the filter keeps it and every boolean cell is
bool-like, so its batch normalizes successfully. -/
def keptComment : CommentRecord :=
  { emptyComment with
      subreddit := some "testsub", author := some "alice", id := some "1" }

/-- A comment from an allow-listed forum whose author is block-listed and
which also carries a removal marker. -/
def blockedRemovedComment : CommentRecord :=
  { emptyComment with
      subreddit := some "testsub", author := some "spammer",
      mod_reason_by := some (.str "mod") }

/-- A comment outside the allow-list whose author is block-listed and which
carries a removal marker. -/
def strayBotComment : CommentRecord :=
  { emptyComment with
      subreddit := some "other", author := some "spammer",
      mod_reason_by := some (.str "mod") }

/-- A comment the filter keeps whose `author_premium` cell is a string,
hence not bool-like. -/
def badBooleanComment : CommentRecord :=
  { emptyComment with
      subreddit := some "testsub", author := some "alice",
      author_premium := some (.str "x") }

/-- The five archive lines of the specification's concrete scenario
(spec section 8): three records, a blank line, and an undecodable line. -/
def scenarioInput : List (RawLine CommentRecord) :=
  [.record { emptyComment with
      subreddit := some "testsub", author := some "alice", id := some "1" },
   .record { emptyComment with
      subreddit := some "other", author := some "bob", id := some "2" },
   .record { emptyComment with
      subreddit := some "testsub", author := some "spammer", id := some "3" },
   .blank,
   .malformed]

theorem pyLower_eq_empty_iff (s : String) : pyLower s = "" ↔ s = "" := by
  constructor
  · intro h
    have hd := congrArg String.data h
    simp only [pyLower] at hd
    cases s with
    | mk data => simp_all
  · intro h
    subst h
    rfl

theorem empty_not_mem_loadAux (lines : List String) :
    ∀ acc : List String, "" ∉ acc →
      "" ∉ lines.foldl
        (fun items line =>
          let item := pyStrip line
          if item = "" then items else items.insert (pyLower item)) acc := by
  induction lines with
  | nil =>
    intro acc h
    simpa using h
  | cons l ls ih =>
    intro acc h
    simp only [List.foldl_cons]
    apply ih
    by_cases hc : pyStrip l = ""
    · simpa [hc] using h
    · simp only [if_neg hc]
      intro hmem
      rcases List.mem_insert_iff.mp hmem with h1 | h2
      · exact hc ((pyLower_eq_empty_iff _).mp h1.symm)
      · exact h h2

/-- The membership set built by `load_list_from_file` never contains the
empty string: blank lines are skipped and lower-casing a nonempty stripped
line is nonempty. -/
theorem empty_not_mem_loadList (lines : List String) :
    "" ∉ loadListFromFile lines :=
  empty_not_mem_loadAux lines [] (by simp)

theorem lookup0_bump_self (m : List (String × Nat)) (k : String) :
    lookup0 (bump m k) k = lookup0 m k + 1 := by
  induction m with
  | nil => simp [bump, lookup0]
  | cons p rest ih =>
    obtain ⟨k0, v⟩ := p
    by_cases h : k0 = k
    · subst h
      simp [bump, lookup0]
    · simp [bump, lookup0, h, ih]

theorem lookup0_bump_ne (m : List (String × Nat)) (k k' : String)
    (h : k ≠ k') : lookup0 (bump m k) k' = lookup0 m k' := by
  induction m with
  | nil => simp [bump, lookup0, h]
  | cons p rest ih =>
    obtain ⟨k0, v⟩ := p
    by_cases h0 : k0 = k
    · subst h0
      simp [bump, lookup0, h]
    · by_cases h1 : k0 = k'
      · subst h1
        simp [bump, lookup0, h0, Ne.symm h]
      · simp [bump, lookup0, h0, h1, ih]

theorem stepComments_measure (allow bots : List String) (bs : Nat)
    (st : CommentsRunState) (l : RawLine CommentRecord) :
    (stepComments allow bots bs st l).written.length +
        (stepComments allow bots bs st l).data.length +
        totalFilteredComments (stepComments allow bots bs st l) =
      st.written.length + st.data.length + totalFilteredComments st + 1 ∧
    (stepComments allow bots bs st l).totalLines = st.totalLines + 1 := by
  cases l with
  | blank =>
    simp [stepComments, totalFilteredComments]
    omega
  | malformed =>
    simp [stepComments, totalFilteredComments]
    omega
  | record r =>
    simp only [stepComments]
    split_ifs <;> simp [totalFilteredComments] <;> omega

theorem foldComments_measure (allow bots : List String) (bs : Nat)
    (lines : List (RawLine CommentRecord)) :
    ∀ st : CommentsRunState,
      (lines.foldl (stepComments allow bots bs) st).totalLines +
          (st.written.length + st.data.length + totalFilteredComments st) =
        st.totalLines +
          ((lines.foldl (stepComments allow bots bs) st).written.length +
            (lines.foldl (stepComments allow bots bs) st).data.length +
            totalFilteredComments (lines.foldl (stepComments allow bots bs) st)) := by
  induction lines with
  | nil =>
    intro st
    simp
  | cons l ls ih =>
    intro st
    simp only [List.foldl_cons]
    have hstep := stepComments_measure allow bots bs st l
    have hrest := ih (stepComments allow bots bs st l)
    omega

theorem stepComments_filtered_pass (allow bots : List String) (bs : Nat)
    (st : CommentsRunState) (r : CommentRecord)
    (hs : pyLower (r.subreddit.getD "") ∈ allow) :
    (stepComments allow bots bs st (.record r)).filteredSubredditCounts =
      bump st.filteredSubredditCounts (pyLower (r.subreddit.getD "")) := by
  simp only [stepComments]
  rw [if_pos hs]
  split_ifs <;> rfl

theorem stepComments_filtered_fail (allow bots : List String) (bs : Nat)
    (st : CommentsRunState) (r : CommentRecord)
    (hs : pyLower (r.subreddit.getD "") ∉ allow) :
    (stepComments allow bots bs st (.record r)).filteredSubredditCounts =
      st.filteredSubredditCounts := by
  simp only [stepComments]
  rw [if_neg hs]

theorem foldComments_filteredCounts (allow bots : List String) (bs : Nat)
    (lines : List (RawLine CommentRecord)) (f : String) :
    ∀ st : CommentsRunState,
      lookup0 (lines.foldl (stepComments allow bots bs) st).filteredSubredditCounts f =
        lookup0 st.filteredSubredditCounts f + countForumPassed allow f lines := by
  induction lines with
  | nil =>
    intro st
    simp [countForumPassed]
  | cons l ls ih =>
    intro st
    simp only [List.foldl_cons]
    rw [ih (stepComments allow bots bs st l)]
    cases l with
    | blank =>
      simp only [countForumPassed, stepComments]
    | malformed =>
      simp only [countForumPassed, stepComments]
    | record r =>
      simp only [countForumPassed]
      by_cases hs : pyLower (r.subreddit.getD "") ∈ allow
      · rw [stepComments_filtered_pass allow bots bs st r hs]
        by_cases hf : pyLower (r.subreddit.getD "") = f
        · subst hf
          rw [lookup0_bump_self, if_pos (And.intro rfl hs)]
          omega
        · rw [lookup0_bump_ne _ _ _ hf,
            if_neg (fun hc : _ ∧ _ => hf hc.1)]
          omega
      · rw [stepComments_filtered_fail allow bots bs st r hs,
          if_neg (fun hc : _ ∧ _ => hs hc.2)]
        omega

theorem stepSubmissions_statsWrites (allow bots : List String) (bs : Nat)
    (st : SubmissionsRunState) (l : RawLine SubmissionRecord) :
    (stepSubmissions allow bots bs st l).statsWrites = st.statsWrites := by
  cases l with
  | blank => rfl
  | malformed => rfl
  | record r =>
    simp only [stepSubmissions]
    split_ifs <;> rfl

theorem astypeBoolean_isOk (v : Option PyVal) :
    (astypeBoolean v).isOk = boolLike v := by
  match v with
  | none => rfl
  | some (.bool b) =>
    simp only [astypeBoolean, boolLike]
    split_ifs <;> rfl
  | some (.int n) =>
    simp only [astypeBoolean, boolLike]
    split_ifs with h0 h1
    · simp [Except.isOk, Except.toBool, h0]
    · simp [Except.isOk, Except.toBool, h1]
    · simp [Except.isOk, Except.toBool, beq_iff_eq, h0, h1]
  | some (.str s) => rfl
  | some (.arr xs) => rfl
  | some (.obj kvs) => rfl

theorem normalizeCommentRecord_isOk (r : CommentRecord) :
    (normalizeCommentRecord r).isOk =
      (boolLike r.author_premium && boolLike r.author_is_blocked &&
        boolLike r.likes) := by
  have h1 := astypeBoolean_isOk r.author_premium
  have h2 := astypeBoolean_isOk r.author_is_blocked
  have h3 := astypeBoolean_isOk r.likes
  unfold normalizeCommentRecord
  cases hap : astypeBoolean r.author_premium <;>
    cases hab : astypeBoolean r.author_is_blocked <;>
    cases hlk : astypeBoolean r.likes <;>
    simp_all [Except.isOk, Except.toBool]

theorem headerCount_map_row {ρ : Type} (batch : List ρ) :
    headerCount (batch.map (CsvEntry.row (ρ := ρ))) = 0 := by
  induction batch with
  | nil => rfl
  | cons r rest ih => simpa [headerCount] using ih

theorem headerCount_append_rows {ρ : Type} (l : List (CsvEntry ρ))
    (batch : List ρ) :
    headerCount (l ++ batch.map .row) = headerCount l := by
  induction l with
  | nil => simpa using headerCount_map_row batch
  | cons e rest ih => cases e <;> simp [headerCount, ih]

theorem flushBatchesCsv_existing {ρ : Type} (bs : List (List ρ)) :
    ∀ f : List (CsvEntry ρ),
      fileHeaderCount (flushBatchesCsv (some f) bs) = headerCount f := by
  induction bs with
  | nil =>
    intro f
    rfl
  | cons b rest ih =>
    intro f
    simp only [flushBatchesCsv, writeBatchCsv]
    rw [ih, headerCount_append_rows]

theorem drainComments_proj (st : CommentsRunState) :
    (drainComments st).written.length = st.written.length + st.data.length ∧
    (drainComments st).data = [] ∧
    (drainComments st).totalLines = st.totalLines ∧
    totalFilteredComments (drainComments st) = totalFilteredComments st ∧
    (drainComments st).filteredSubredditCounts = st.filteredSubredditCounts := by
  unfold drainComments
  split_ifs with hd
  · simp [hd]
  · simp [totalFilteredComments]

theorem reportComments_proj (st : CommentsRunState) :
    (reportComments st).written = st.written ∧
    (reportComments st).data = st.data ∧
    (reportComments st).totalLines = st.totalLines ∧
    totalFilteredComments (reportComments st) = totalFilteredComments st ∧
    (reportComments st).filteredSubredditCounts = st.filteredSubredditCounts := by
  simp [reportComments, totalFilteredComments]

/-- C1: the claim asserts that at end of input both pipelines drain the
trailing partial batch, so every Kept record reaches the output sinks.
This theorem evaluates the submissions pipeline at the failing input: one
record that is classified Kept, with `batch_size = 2`, after which
`process_submissions` returns with the record still sitting in its buffer
(`data`) and nothing ever written to the sinks — the drain exists only
inside the never-invoked nested `main` of `filter_reddit_submissions.py`. -/
theorem submissions_trailing_batch_not_drained :
    (processSubmissions (loadListFromFile ["testsub"]) (loadListFromFile []) 2
        [.record keptSubmission]).written = [] ∧
    (processSubmissions (loadListFromFile ["testsub"]) (loadListFromFile []) 2
        [.record keptSubmission]).data = [keptSubmission] := by
  decide

/-- C2: the claim asserts that every archive-processing run writes the
statistics report exactly once at end of run. The comments pipeline does
(`reportComments`), but `process_submissions` never writes its stats file:
the report code sits in the never-invoked nested `main`. For every input,
the number of stats-file writes performed by the submissions run is 0. -/
theorem submissions_stats_report_never_written (allow bots : List String)
    (batchSize : Nat) (lines : List (RawLine SubmissionRecord)) :
    (processSubmissions allow bots batchSize lines).statsWrites = 0 := by
  unfold processSubmissions
  suffices h : ∀ st : SubmissionsRunState,
      (lines.foldl (stepSubmissions allow bots batchSize) st).statsWrites =
        st.statsWrites by
    rw [h]
    rfl
  induction lines with
  | nil =>
    intro st
    rfl
  | cons l ls ih =>
    intro st
    simp only [List.foldl_cons]
    rw [ih, stepSubmissions_statsWrites]

/-- Accounting identity of the flush-always-succeeds driver model: the
line total equals the flushed rows plus the per-reason counters, with an
empty buffer after the drain. Helper for the amended C3 theorem, which
transfers it to the fallible-flush model on runs that complete. -/
theorem processComments_accounting (allow bots : List String) (batchSize : Nat)
    (lines : List (RawLine CommentRecord)) :
    (processComments allow bots batchSize lines).totalLines =
      (processComments allow bots batchSize lines).written.length +
        totalFilteredComments (processComments allow bots batchSize lines) ∧
    (processComments allow bots batchSize lines).data = [] := by
  have h0 := foldComments_measure allow bots batchSize lines initCommentsState
  have hd := drainComments_proj
    (lines.foldl (stepComments allow bots batchSize) initCommentsState)
  have hr := reportComments_proj (drainComments
    (lines.foldl (stepComments allow bots batchSize) initCommentsState))
  have hw := congrArg List.length hr.1
  have hinit : initCommentsState.written.length + initCommentsState.data.length +
      totalFilteredComments initCommentsState = 0 := rfl
  have hz : initCommentsState.totalLines = 0 := rfl
  rw [hinit, hz] at h0
  unfold processComments
  refine ⟨?_, ?_⟩
  · rw [hr.2.2.1, hd.2.2.1, hw, hd.1, hr.2.2.2.1, hd.2.2.2.1]
    omega
  · rw [hr.2.1, hd.2.1]

theorem stepCommentsChecked_ok (allow bots : List String) (bs : Nat)
    (st st' : CommentsRunState) (l : RawLine CommentRecord)
    (h : stepCommentsChecked allow bots bs st l = .ok st') :
    st' = stepComments allow bots bs st l := by
  cases l with
  | blank =>
    simp only [stepCommentsChecked, stepComments, Except.ok.injEq] at h ⊢
    exact h.symm
  | malformed =>
    simp only [stepCommentsChecked, stepComments, Except.ok.injEq] at h ⊢
    exact h.symm
  | record r =>
    simp only [stepCommentsChecked, stepComments] at h ⊢
    split_ifs at h ⊢ <;>
      try (simp only [Except.ok.injEq] at h; exact h.symm)
    cases hn : normalizeCommentBatch (st.data ++ [r]) with
    | error e =>
      rw [hn] at h
      exact absurd h (by simp)
    | ok rows =>
      rw [hn] at h
      simp only [Except.ok.injEq] at h
      exact h.symm

theorem runCommentsChecked_error (allow bots : List String) (bs : Nat)
    (msg : String) (lines : List (RawLine CommentRecord)) :
    runCommentsChecked allow bots bs (.error msg) lines = .error msg := by
  cases lines <;> rfl

theorem runCommentsChecked_ok (allow bots : List String) (bs : Nat)
    (lines : List (RawLine CommentRecord)) :
    ∀ st st' : CommentsRunState,
      runCommentsChecked allow bots bs (.ok st) lines = .ok st' →
        st' = lines.foldl (stepComments allow bots bs) st := by
  induction lines with
  | nil =>
    intro st st' h
    simp only [runCommentsChecked, Except.ok.injEq] at h
    simpa using h.symm
  | cons l ls ih =>
    intro st st' h
    simp only [runCommentsChecked] at h
    cases hs : stepCommentsChecked allow bots bs st l with
    | error e =>
      rw [hs, runCommentsChecked_error] at h
      exact absurd h (by simp)
    | ok st1 =>
      rw [hs] at h
      rw [List.foldl_cons, ← stepCommentsChecked_ok allow bots bs st st1 l hs]
      exact ih st1 st' h

theorem drainCommentsChecked_ok (st st' : CommentsRunState)
    (h : drainCommentsChecked st = .ok st') : st' = drainComments st := by
  unfold drainCommentsChecked drainComments at *
  split_ifs at h ⊢
  · simp only [Except.ok.injEq] at h
    exact h.symm
  · cases hn : normalizeCommentBatch st.data with
    | error e =>
      rw [hn] at h
      exact absurd h (by simp)
    | ok rows =>
      rw [hn] at h
      simp only [Except.ok.injEq] at h
      exact h.symm

/-- C3 counterexample: with `batch_size = 1` the first line is classified
Kept and immediately flushed, and the flush raises (`astype('boolean')` on
the string-valued `author_premium` cell), so the run aborts with the
uncaught error: the second (blank) line is never read and receives no
outcome, and no totals are ever reported — the claimed per-line outcome
and end-of-run accounting identity fail for this archive. -/
theorem comments_line_accounting_counterexample :
    processCommentsChecked (loadListFromFile ["testsub"])
        (loadListFromFile ["spammer"]) 1 [.record badBooleanComment, .blank] =
      .error "Need to pass bool-like values" ∧
    (processCommentsChecked (loadListFromFile ["testsub"])
        (loadListFromFile ["spammer"]) 1
        [.record badBooleanComment, .blank]).isOk = false :=
  ⟨rfl, rfl⟩

/-- C3 amended: for every archive run of the comments pipeline that
completes — i.e. no batch flush raises, which `processCommentsChecked`
certifies by returning `.ok` — every input line received exactly one
filter outcome and the reported totals satisfy
`total_lines == kept + Σ(per-reason rejected counts)`, where the kept
count equals the number of rows appended to the batch over the run (all
flushed to the sinks once the trailing batch is drained, leaving the
buffer empty). -/
theorem comments_line_accounting_checked (allow bots : List String)
    (batchSize : Nat) (lines : List (RawLine CommentRecord))
    (st : CommentsRunState)
    (h : processCommentsChecked allow bots batchSize lines = .ok st) :
    st.totalLines = st.written.length + totalFilteredComments st ∧
    st.data = [] := by
  unfold processCommentsChecked at h
  split at h
  next e heq => exact absurd h (by simp)
  next st1 heq =>
    split at h
    next e2 heq2 => exact absurd h (by simp)
    next st2 heq2 =>
      simp only [Except.ok.injEq] at h
      have h1 := runCommentsChecked_ok allow bots batchSize lines
        initCommentsState st1 heq
      have h2 := drainCommentsChecked_ok st1 st2 heq2
      have hp := processComments_accounting allow bots batchSize lines
      unfold processComments at hp
      rw [← h, h2, h1]
      exact hp

/-- Witness for the amended C3 theorem: a one-record archive whose single
flush succeeds, with the completion hypothesis discharged by evaluation. -/
theorem comments_line_accounting_checked_witness :
    (⟨[], [keptComment], 1, 0, 0, 0, 0, 0, 0, 0, 0, [("testsub", 1)],
        [("testsub", 1)], 1⟩ : CommentsRunState).totalLines =
      (⟨[], [keptComment], 1, 0, 0, 0, 0, 0, 0, 0, 0, [("testsub", 1)],
        [("testsub", 1)], 1⟩ : CommentsRunState).written.length +
        totalFilteredComments
          ⟨[], [keptComment], 1, 0, 0, 0, 0, 0, 0, 0, 0, [("testsub", 1)],
            [("testsub", 1)], 1⟩ ∧
    (⟨[], [keptComment], 1, 0, 0, 0, 0, 0, 0, 0, 0, [("testsub", 1)],
        [("testsub", 1)], 1⟩ : CommentsRunState).data = [] :=
  comments_line_accounting_checked (loadListFromFile ["testsub"])
    (loadListFromFile ["spammer"]) 10000 [.record keptComment]
    ⟨[], [keptComment], 1, 0, 0, 0, 0, 0, 0, 0, 0, [("testsub", 1)],
      [("testsub", 1)], 1⟩ rfl

/-- C6: the claim asserts that both sinks end up holding the previously
committed rows followed by the new batch (true for both writer variants),
and that an existing columnar file is extended by a genuine append that
does not read the whole existing file back. Evaluated on an existing
two-row file: the `write_batch_to_disk` of `filter_reddit_comments.py` /
`filter_reddit_submissions.py` reads back both committed rows
(`pd.read_parquet` of the whole file) on every flush, while the
`reddit_utils.py` variant (`fastparquet` with append) reads none. -/
theorem parquet_rewrite_vs_append :
    writeBatchParquetRewrite (some [10, 20]) [30] = ([10, 20, 30], 2) ∧
    writeBatchParquetAppend (some [10, 20]) [30] = ([10, 20, 30], 0) :=
  ⟨rfl, rfl⟩

/-- C4 counterexample: a comment from allow-listed forum "testsub" whose
author is block-listed is rejected (nothing is kept or written), yet the
`filtered_subreddit_counts` entry for "testsub" — the count reported under
"Subreddit counts (lines kept for analysis)" — is 1, not 0, because
`process_comments` increments it before the bot and policy checks. -/
theorem forum_kept_table_counterexample :
    lookup0 (processComments (loadListFromFile ["testsub"])
        (loadListFromFile ["spammer"]) 10000
        [.record botComment]).filteredSubredditCounts "testsub" = 1 ∧
    (processComments (loadListFromFile ["testsub"]) (loadListFromFile ["spammer"])
        10000 [.record botComment]).written = [] ∧
    (processComments (loadListFromFile ["testsub"]) (loadListFromFile ["spammer"])
        10000 [.record botComment]).data = [] := by
  decide

/-- C4 amended: for every run and forum `f`, the per-forum count
accumulated in `filtered_subreddit_counts` and reported in the "lines kept
for analysis" table equals the number of records from `f` that passed the
forum allow-list check — including records later rejected by the
block-list or by the record-kind policy predicates. -/
theorem forum_kept_table_counts_allow_passed (allow bots : List String)
    (batchSize : Nat) (lines : List (RawLine CommentRecord)) (f : String) :
    lookup0 (processComments allow bots batchSize
        lines).filteredSubredditCounts f = countForumPassed allow f lines := by
  have hd := drainComments_proj
    (lines.foldl (stepComments allow bots batchSize) initCommentsState)
  have hr := reportComments_proj (drainComments
    (lines.foldl (stepComments allow bots batchSize) initCommentsState))
  unfold processComments
  rw [hr.2.2.2.2, hd.2.2.2.2, foldComments_filteredCounts]
  have hz : lookup0 initCommentsState.filteredSubredditCounts f = 0 := rfl
  omega

/-- C5 counterexample: a parsed record whose case-folded author is in the
block-list and which carries a removal marker, but whose forum is not in
the allow-list, is counted under `not_interest_subreddit` — not under the
`bots` reason as the claim states for every such record. -/
theorem bots_priority_counterexample :
    (pyLower (strayBotComment.author.getD "") ∈ loadListFromFile ["spammer"] ∨
      pyLower (strayBotComment.author.getD "") = "[deleted]") ∧
    (strayBotComment.mod_reason_by.isSome ∨
      strayBotComment.mod_reason_title.isSome ∨
      strayBotComment.removal_reason.isSome) ∧
    (stepComments (loadListFromFile ["testsub"]) (loadListFromFile ["spammer"])
        10000 initCommentsState (.record strayBotComment)).botsCount = 0 ∧
    (stepComments (loadListFromFile ["testsub"]) (loadListFromFile ["spammer"])
        10000 initCommentsState (.record strayBotComment)).notInterestCount
      = 1 := by
  decide

/-- C5 amended: for every parsed record whose case-folded forum passes the
allow-list, whose case-folded author is in the block-list (or equals the
deleted-user sentinel) and which carries a removal marker, the loop body
counts the record exactly once, under the `bots` reason and under no other
reason, and neither buffers nor writes it. -/
theorem bots_priority_after_forum_filter (allow bots : List String)
    (batchSize : Nat) (st : CommentsRunState) (r : CommentRecord)
    (hs : pyLower (r.subreddit.getD "") ∈ allow)
    (ha : pyLower (r.author.getD "") ∈ bots ∨
      pyLower (r.author.getD "") = "[deleted]")
    (hm : r.mod_reason_by.isSome ∨ r.mod_reason_title.isSome ∨
      r.removal_reason.isSome) :
    (stepComments allow bots batchSize st (.record r)).botsCount =
        st.botsCount + 1 ∧
    (stepComments allow bots batchSize st (.record r)).notInterestCount =
        st.notInterestCount ∧
    (stepComments allow bots batchSize st (.record r)).badLinesCount =
        st.badLinesCount ∧
    (stepComments allow bots batchSize st (.record r)).bannedCount =
        st.bannedCount ∧
    (stepComments allow bots batchSize st (.record r)).crowdControlCount =
        st.crowdControlCount ∧
    (stepComments allow bots batchSize st (.record r)).nonTextCount =
        st.nonTextCount ∧
    (stepComments allow bots batchSize st (.record r)).controversialCount =
        st.controversialCount ∧
    (stepComments allow bots batchSize st (.record r)).removedCount =
        st.removedCount ∧
    (stepComments allow bots batchSize st (.record r)).data = st.data ∧
    (stepComments allow bots batchSize st (.record r)).written = st.written := by
  simp only [stepComments]
  rw [if_pos hs, if_pos ha]
  exact ⟨rfl, rfl, rfl, rfl, rfl, rfl, rfl, rfl, rfl, rfl⟩

/-- Witness for the amended C5 theorem at a concrete record, discharging
its three hypotheses by evaluation. -/
theorem bots_priority_after_forum_filter_witness :
    (stepComments ["testsub"] ["spammer"] 10000 initCommentsState
        (.record blockedRemovedComment)).botsCount =
      initCommentsState.botsCount + 1 ∧
    (stepComments ["testsub"] ["spammer"] 10000 initCommentsState
        (.record blockedRemovedComment)).notInterestCount =
      initCommentsState.notInterestCount ∧
    (stepComments ["testsub"] ["spammer"] 10000 initCommentsState
        (.record blockedRemovedComment)).badLinesCount =
      initCommentsState.badLinesCount ∧
    (stepComments ["testsub"] ["spammer"] 10000 initCommentsState
        (.record blockedRemovedComment)).bannedCount =
      initCommentsState.bannedCount ∧
    (stepComments ["testsub"] ["spammer"] 10000 initCommentsState
        (.record blockedRemovedComment)).crowdControlCount =
      initCommentsState.crowdControlCount ∧
    (stepComments ["testsub"] ["spammer"] 10000 initCommentsState
        (.record blockedRemovedComment)).nonTextCount =
      initCommentsState.nonTextCount ∧
    (stepComments ["testsub"] ["spammer"] 10000 initCommentsState
        (.record blockedRemovedComment)).controversialCount =
      initCommentsState.controversialCount ∧
    (stepComments ["testsub"] ["spammer"] 10000 initCommentsState
        (.record blockedRemovedComment)).removedCount =
      initCommentsState.removedCount ∧
    (stepComments ["testsub"] ["spammer"] 10000 initCommentsState
        (.record blockedRemovedComment)).data = initCommentsState.data ∧
    (stepComments ["testsub"] ["spammer"] 10000 initCommentsState
        (.record blockedRemovedComment)).written = initCommentsState.written :=
  bots_priority_after_forum_filter ["testsub"] ["spammer"] 10000
    initCommentsState blockedRemovedComment (by decide) (by decide) (by decide)

/-- C7 counterexample: a record that the filter keeps but whose
`author_premium` cell holds a string makes batch normalization raise
(the batch is aborted), contradicting the claim that normalization never
raises and coerces uninterpretable boolean cells to unknown. -/
theorem normalize_raises_counterexample :
    classifyComment (loadListFromFile ["testsub"]) (loadListFromFile ["spammer"])
        (.record badBooleanComment) = .kept ∧
    (normalizeCommentBatch [badBooleanComment]).isOk = false := by
  decide

/-- C7 amended: normalizing a batch never raises on account of timestamp
or numeric cells (those coerce to null by construction of
`toDatetimeCoerce` / `toNumericCoerce`), but boolean columns are cast
strictly: batch normalization succeeds exactly when every record's boolean
cells are bool-like, and a single non-bool-like boolean cell aborts the
whole batch with an error instead of coercing to unknown. -/
theorem normalize_success_iff_bool_like (batch : List CommentRecord) :
    (normalizeCommentBatch batch).isOk =
      batch.all (fun r => boolLike r.author_premium &&
        boolLike r.author_is_blocked && boolLike r.likes) := by
  induction batch with
  | nil => rfl
  | cons r rest ih =>
    have hrec := normalizeCommentRecord_isOk r
    simp only [normalizeCommentBatch, List.all_cons]
    cases hr : normalizeCommentRecord r with
    | error e =>
      rw [hr] at hrec
      simp only [Except.isOk, Except.toBool] at hrec
      rw [← hrec]
      rfl
    | ok row =>
      rw [hr] at hrec
      simp only [Except.isOk, Except.toBool] at hrec
      rw [← hrec]
      cases hb : normalizeCommentBatch rest with
      | error e =>
        rw [hb] at ih
        simp only [Except.isOk, Except.toBool] at ih
        rw [← ih]
        rfl
      | ok rows =>
        rw [hb] at ih
        simp only [Except.isOk, Except.toBool] at ih
        rw [← ih]
        rfl

/-- C8: header-once invariant of the row-oriented sink. Starting from a
fresh (non-existent) CSV file, flushing any nonempty sequence of batches
leaves a file with exactly one header line; the header is written with the
first batch (a fresh-file write emits the header followed by the rows) and
a write into an already-existing file adds rows but no header. -/
theorem csv_header_once {ρ : Type} (batches : List (List ρ))
    (hne : batches ≠ []) (f : List (CsvEntry ρ)) (b : List ρ) :
    fileHeaderCount (flushBatchesCsv none batches) = 1 ∧
    writeBatchCsv (none : Option (List (CsvEntry ρ))) b = .header :: b.map .row ∧
    headerCount (writeBatchCsv (some f) b) = headerCount f := by
  refine ⟨?_, rfl, headerCount_append_rows f b⟩
  obtain ⟨b0, bs0, rfl⟩ := List.exists_cons_of_ne_nil hne
  show fileHeaderCount (flushBatchesCsv (some (writeBatchCsv none b0)) bs0) = 1
  rw [flushBatchesCsv_existing]
  show headerCount (.header :: b0.map .row) = 1
  simp [headerCount, headerCount_map_row]

/-- Witness for the C8 theorem at a concrete two-batch run, an existing
one-header file and a concrete appended batch. -/
theorem csv_header_once_witness :
    ([[1], [2, 3]] : List (List Nat)) ≠ [] ∧
    (fileHeaderCount (flushBatchesCsv none [[1], [2, 3]]) = 1 ∧
      writeBatchCsv (none : Option (List (CsvEntry Nat))) [9] =
        .header :: [9].map .row ∧
      headerCount (writeBatchCsv (some [CsvEntry.header]) [9]) =
        headerCount [CsvEntry.header (ρ := Nat)]) :=
  ⟨by decide, csv_header_once [[1], [2, 3]] (by decide) [CsvEntry.header] [9]⟩

/-- C9: the specification's concrete five-line scenario with allow-list
containing "testsub" and block-list containing "spammer": one record kept
(the one with id "1"), one rejected as `not_interest_subreddit`, one as
`bots`, two as `bad_lines`; forum "testsub" seen twice, forum "other"
seen once, and the blank and undecodable lines touch no forum count. -/
theorem concrete_scenario_counts :
    (processComments (loadListFromFile ["testsub"]) (loadListFromFile ["spammer"])
        10000 scenarioInput).totalLines = 5 ∧
    (processComments (loadListFromFile ["testsub"]) (loadListFromFile ["spammer"])
        10000 scenarioInput).written.map (fun r => r.id) = [some "1"] ∧
    (processComments (loadListFromFile ["testsub"]) (loadListFromFile ["spammer"])
        10000 scenarioInput).notInterestCount = 1 ∧
    (processComments (loadListFromFile ["testsub"]) (loadListFromFile ["spammer"])
        10000 scenarioInput).botsCount = 1 ∧
    (processComments (loadListFromFile ["testsub"]) (loadListFromFile ["spammer"])
        10000 scenarioInput).badLinesCount = 2 ∧
    (processComments (loadListFromFile ["testsub"]) (loadListFromFile ["spammer"])
        10000 scenarioInput).bannedCount = 0 ∧
    (processComments (loadListFromFile ["testsub"]) (loadListFromFile ["spammer"])
        10000 scenarioInput).crowdControlCount = 0 ∧
    (processComments (loadListFromFile ["testsub"]) (loadListFromFile ["spammer"])
        10000 scenarioInput).nonTextCount = 0 ∧
    (processComments (loadListFromFile ["testsub"]) (loadListFromFile ["spammer"])
        10000 scenarioInput).controversialCount = 0 ∧
    (processComments (loadListFromFile ["testsub"]) (loadListFromFile ["spammer"])
        10000 scenarioInput).removedCount = 0 ∧
    (processComments (loadListFromFile ["testsub"]) (loadListFromFile ["spammer"])
        10000 scenarioInput).subredditCounts = [("testsub", 2), ("other", 1)] := by
  decide

/-- C10: a parseable record with no forum-name field is treated as
belonging to forum "" and is always rejected as `not_interest_subreddit`,
for every pair of membership files, because `load_list_from_file` skips
blank lines and so its result can never contain the empty string. -/
theorem missing_forum_rejected (allowLines botLines : List String)
    (r : CommentRecord) (h : r.subreddit = none) :
    classifyComment (loadListFromFile allowLines) (loadListFromFile botLines)
      (.record r) = .rejected .not_interest_subreddit := by
  simp only [classifyComment]
  rw [h]
  rw [if_neg]
  exact empty_not_mem_loadList allowLines

/-- Witness for the C10 theorem: the all-fields-absent record against
concrete membership files. -/
theorem missing_forum_rejected_witness :
    classifyComment (loadListFromFile ["testsub"]) (loadListFromFile ["bot"])
      (.record emptyComment) = .rejected .not_interest_subreddit :=
  missing_forum_rejected ["testsub"] ["bot"] emptyComment rfl
